import Mathlib

/-!
Shallow embedding of `src/selfTunnel.js` (self-tunnel): a WebSocket tunnel
client that authenticates against a relay, receives opaque HTTP request
payloads as binary frames, forwards them to a local TCP server, and sends
the accumulated responses back with an end-of-response marker appended.

Node `Buffer`s are lists of bytes.  Each event-driven handler of the source
(the `ws.on('message')`, `ws.on('close')`, `ws.on('error')`, `ws.on('pong')`
callbacks, the ping timer tick, `cleanup`, `connectToTunnel`, `tunnel.close`
and the `processRequestQueue` forwarding loop) becomes a pure function from
the mutable state captured by the closure to a new state together with the
list of observable effects it performs (WebSocket sends, local socket
connects/writes, timer operations, log lines).  The local HTTP server and
the JSON parser are environments of the program and are supplied as oracles.
-/

namespace SelfTunnel

/-- A Node `Buffer`: a finite byte sequence. -/
abbrev Buf := List Nat

/-- Buffer prefix test: models `buf.startsWith`-style byte comparison and the
head test done by `message.startsWith('\x7b')` / `message.startsWith('->')`
in the source (the characters compared are ASCII, so the byte view and the
string view agree). -/
def bufStartsWith : Buf → Buf → Bool
  | _, [] => true
  | [], _ :: _ => false
  | a :: as, b :: bs => a == b && bufStartsWith as bs

/-- Containment test modelling `hay.indexOf(pat) !== -1` on Node buffers:
true when `pat` occurs as a contiguous subsequence of `hay`.  Like
`Buffer.prototype.indexOf`, an empty pattern is found at offset 0. -/
def bufContains (hay pat : Buf) : Bool :=
  if bufStartsWith hay pat then true
  else
    match hay with
    | [] => false
    | _ :: t => bufContains t pat

/-- Node `Buffer.concat`: concatenation of a list of buffers. -/
def bufConcat : List Buf → Buf
  | [] => []
  | b :: bs => b ++ bufConcat bs

/-- The fields of a parsed JSON control object that the client reads
(`jsonData.type`, `.status`, `.primary`, `.suspend`, `.eof`, `.message`);
an absent field is `none` (JS `undefined`).  The `suspend` and `eof` fields
are kept as the byte sequences `Buffer.from` would produce from them. -/
structure JsonObj where
  type : Option String := none
  status : Option String := none
  primary : Option Bool := none
  suspend : Option Buf := none
  eof : Option Buf := none
  message : Option String := none
  deriving Repr, DecidableEq

/-- Result of `JSON.parse` on the text of a frame.  The client does not
implement JSON itself, so the parse result is supplied as an oracle next to
the raw bytes; `err` models a thrown `SyntaxError`. -/
inductive ParseOutcome where
  | ok (j : JsonObj)
  | err
  deriving Repr, DecidableEq

/-- An inbound WebSocket frame as seen by the `ws.on('message')` handler:
the raw bytes plus the `isBinary` tag; text frames also carry the oracle
result of `JSON.parse` on their decoded text. -/
inductive Msg where
  | text (raw : Buf) (parsed : ParseOutcome)
  | binary (raw : Buf)
  deriving Repr, DecidableEq

/-- The immutable part of the tunnel object: constructor options that the
code never mutates. `hasApp` models the presence of the optional framework
`app` collaborator. -/
structure Config where
  domain : String
  secret : String
  device : String
  isPublic : Bool
  hasApp : Bool
  pingIntervalMs : Int
  deriving Repr, DecidableEq

/-- The mutable state captured by the `selfTunnel` closure: the session
fields of the `tunnel` object plus the local-link variables
(`localSocket`, `requestQueue`, `connecting`, `processing`).
`wsOpen` is `tunnel.ws !== null`; `pingTimer` is
`tunnel.pingIntervalId !== null`; `localSocket` holds the identifier of the
live local TCP socket, `nextSock` the identifier the next `net.connect`
would create. -/
structure TunnelState where
  suspendCommand : Option Buf
  eofMarker : Option Buf
  isPrimary : Bool
  alive : Bool
  wsOpen : Bool
  pingTimer : Bool
  autoConnectInterval : Int
  requestQueue : List Buf
  processing : Bool
  connecting : Bool
  localSocket : Option Nat
  nextSock : Nat
  deriving Repr, DecidableEq

/-- The state of the `tunnel` object right after construction
(source lines 59-85), before `connectToTunnel()` runs. -/
def initialState (autoConnect : Int) : TunnelState :=
  { suspendCommand := none
    eofMarker := none
    isPrimary := false
    alive := false
    wsOpen := false
    pingTimer := false
    autoConnectInterval := autoConnect
    requestQueue := []
    processing := false
    connecting := false
    localSocket := none
    nextSock := 0 }

/-- Observable effects of the handlers: messages sent on the relay
WebSocket, local-socket operations, timer operations and the log lines the
claims talk about.  Debug-only byte-count logs are not modelled. -/
inductive Event where
  | sendLogin (domain secret device : String)
  | sendStart (usage : String)
  | sendBinary (b : Buf)
  | sendPing
  | wsConnect
  | wsCloseFrame
  | scheduleReconnect
  | clearPing
  | destroyLocal
  | localConnect (sock : Nat)
  | localWrite (sock : Nat) (b : Buf)
  | logSuspend
  | logEcho (tail : Buf)
  | logTunnelError
  | logError
  deriving Repr, DecidableEq

/-- Outcome of one invocation of the message handler: either it returns
normally or an uncaught exception propagates out of it (`threw`).  In both
cases the state reached and the effects performed before the outcome are
recorded. -/
inductive HandlerResult where
  | ok (s : TunnelState) (evs : List Event)
  | threw (s : TunnelState) (evs : List Event)
  deriving Repr, DecidableEq

/-- The state component of a handler outcome. -/
def HandlerResult.state : HandlerResult → TunnelState
  | .ok s _ => s
  | .threw s _ => s

/-- The effects component of a handler outcome. -/
def HandlerResult.events : HandlerResult → List Event
  | .ok _ evs => evs
  | .threw _ evs => evs

/-- True when the handler outcome is an uncaught exception. -/
def HandlerResult.isThrew : HandlerResult → Bool
  | .ok _ _ => false
  | .threw _ _ => true

/-- The `try` block of the `ws.on('message')` handler restricted to text
frames (source lines 301-347): the control-message dispatch.  Returns the
new state, the effects, and whether a `return` statement executed inside
the `try` (when false, control falls through to the suspend-containment
check after the `catch`).  A caught exception (`JSON.parse` failure, or
`Buffer.from(undefined)` when a `start` message lacks a field) logs
"Error processing message" (`logError`) and also falls through. -/
def handleControlText (cfg : Config) (s : TunnelState) (raw : Buf)
    (parsed : ParseOutcome) : TunnelState × List Event × Bool :=
  if bufStartsWith raw [123] then -- message.startsWith(String.fromCharCode 123)
    match parsed with
    | .err => (s, [Event.logError], false) -- JSON.parse threw, caught at line 351
    | .ok j =>
      if j.type = some "hello" then
        -- send login with the spread credentials (line 314)
        (s, [Event.sendLogin cfg.domain cfg.secret cfg.device], true)
      else if j.type = some "login" ∧ j.status = some "ok" then
        -- tunnel.isPrimary = jsonData.primary; an absent field stores
        -- undefined, which is falsy everywhere isPrimary is read, so it is
        -- modelled as false (lines 319-323)
        ({ s with isPrimary := j.primary.getD false },
         [Event.sendStart (if cfg.isPublic then "public" else "private")], true)
      else if j.type = some "start" then
        -- Buffer.from(jsonData.suspend) then Buffer.from(jsonData.eof);
        -- Buffer.from(undefined) throws and is caught, after any earlier
        -- assignment already took effect (lines 327-328)
        match j.suspend, j.eof with
        | some su, some eo =>
            ({ s with suspendCommand := some su, eofMarker := some eo }, [], true)
        | some su, none =>
            ({ s with suspendCommand := some su }, [Event.logError], false)
        | none, _ => (s, [Event.logError], false)
      else if j.type = some "error" then
        (s, [Event.logTunnelError], true)
      else if bufStartsWith raw [45, 62] then -- message.startsWith("->")
        (s, [Event.logEcho (raw.drop 2)], true)
      else (s, [], false)
  else (s, [], false)

/-- The code after the `catch` block of the message handler (source lines
355-361): `req.indexOf(tunnel.suspendCommand) !== -1` followed by
`handleTunnelRequest`.  When `tunnel.suspendCommand` is `null`,
`Buffer.prototype.indexOf` throws `TypeError` (its value argument must be a
number, string, Buffer or Uint8Array), and that throw is outside the `try`,
so it escapes the handler (`threw`).  `handleTunnelRequest` (lines 266-275)
either writes straight through to an open local socket (framework bypass)
or pushes onto the queue; its follow-up call that starts the forwarding
loop is modelled separately by `processRequestQueue`. -/
def handleSuspendOrForward (cfg : Config) (s : TunnelState) (acc : List Event)
    (raw : Buf) : HandlerResult :=
  match s.suspendCommand with
  | none => .threw s acc
  | some sc =>
    if bufContains raw sc then
      .ok s (acc ++ [Event.logSuspend])
    else if cfg.hasApp && s.processing && s.localSocket.isSome then
      .ok s (acc ++ [Event.localWrite (s.localSocket.getD 0) raw])
    else
      .ok { s with requestQueue := s.requestQueue ++ [raw] } acc

/-- The `ws.on('message')` handler (source lines 298-362).  An empty frame
returns at once (`req.length <= 0`, line 300); binary frames skip the text
block entirely; text frames run the control dispatch and, unless it
returned, fall through to the suspend-containment check. -/
def onMessage (cfg : Config) (s : TunnelState) (m : Msg) : HandlerResult :=
  match m with
  | .binary raw =>
    if raw.length = 0 then .ok s []
    else handleSuspendOrForward cfg s [] raw
  | .text raw parsed =>
    if raw.length = 0 then .ok s []
    else
      match handleControlText cfg s raw parsed with
      | (s1, evs, true) => .ok s1 evs
      | (s1, evs, false) => handleSuspendOrForward cfg s1 evs raw

/-- Runs a sequence of inbound frames through the message handler,
accumulating effects; an uncaught throw aborts the run. -/
def runMsgs (cfg : Config) (s : TunnelState) : List Msg → TunnelState × List Event
  | [] => (s, [])
  | m :: ms =>
    match onMessage cfg s m with
    | .ok s1 evs =>
      let p := runMsgs cfg s1 ms
      (p.fst, evs ++ p.snd)
    | .threw s1 evs => (s1, evs)

/-- The `cleanup` function (source lines 407-424): stop the ping timer,
destroy the local socket, empty the request queue and clear the flags.
`clearInterval` and `destroy` are only performed when the timer / socket
exist, which the idempotence claim observes. -/
def cleanup (s : TunnelState) : TunnelState × List Event :=
  ({ s with pingTimer := false
            localSocket := none
            requestQueue := []
            connecting := false
            processing := false
            alive := false },
   (if s.pingTimer then [Event.clearPing] else [])
     ++ (if s.localSocket.isSome then [Event.destroyLocal] else []))

/-- The `ws.on('close')` handler (source lines 365-377): cleanup, null out
the WebSocket and both markers, then schedule `connectToTunnel` iff
`tunnel.autoConnectInterval > 10000`.  Note the handler never touches
`tunnel.isPrimary`. -/
def onClose (s : TunnelState) : TunnelState × List Event :=
  -- `cleanup` leaves `autoConnectInterval` untouched, so the guard reads the
  -- incoming value
  if 10000 < s.autoConnectInterval then
    ({ (cleanup s).fst with wsOpen := false, suspendCommand := none, eofMarker := none },
     (cleanup s).snd ++ [Event.scheduleReconnect])
  else
    ({ (cleanup s).fst with wsOpen := false, suspendCommand := none, eofMarker := none },
     (cleanup s).snd)

/-- The `ws.on('error')` handler (source lines 380-383): log and cleanup. -/
def onWsError (s : TunnelState) : TunnelState × List Event :=
  ((cleanup s).fst, Event.logError :: (cleanup s).snd)

/-- `connectToTunnel` up to the point where the new WebSocket is created and
its ping timer armed (source lines 280-289 and 390-401): it begins with
`cleanup()`, then assigns `tunnel.ws` and, when `tunnel.pingInterval > 1000`,
installs the ping interval timer. -/
def connectToTunnel (cfg : Config) (s : TunnelState) : TunnelState × List Event :=
  ({ (cleanup s).fst with
       wsOpen := true, pingTimer := decide (1000 < cfg.pingIntervalMs) },
   (cleanup s).snd ++ [Event.wsConnect])

/-- `tunnel.close` (source lines 431-438): cleanup, close and null out the
WebSocket when present, and set `autoConnectInterval` to 0 so the close
handler will never schedule a reconnect again. -/
def close (s : TunnelState) : TunnelState × List Event :=
  -- `cleanup` leaves `tunnel.ws` untouched, so the guard reads the incoming
  -- value
  if s.wsOpen then
    ({ (cleanup s).fst with wsOpen := false, autoConnectInterval := 0 },
     (cleanup s).snd ++ [Event.wsCloseFrame])
  else
    ({ (cleanup s).fst with autoConnectInterval := 0 }, (cleanup s).snd)

/-- The `ws.on('pong')` handler (source lines 385-388). -/
def onPong (s : TunnelState) : TunnelState :=
  { s with alive := true }

/-- One tick of the ping interval timer (source lines 391-401): a tick that
finds `alive` false stops the timer and calls `ws.close()`; otherwise it
clears `alive` and sends a ping. -/
def pingTick (s : TunnelState) : TunnelState × List Event :=
  if s.alive then ({ s with alive := false }, [Event.sendPing])
  else ({ s with pingTimer := false }, [Event.wsCloseFrame])

/-- Behaviour of one request/response exchange against the local HTTP
server, supplied as an environment oracle: either the response chunks
arrive and the stream completes cleanly (`success`), or the local socket
errors mid-response (`socketError`).  Failure of the initial `net.connect`
itself (promise rejection, request skipped) is not exercised by any claim
and is not modelled. -/
inductive ExchangeOutcome where
  | success (chunks : List Buf)
  | socketError
  deriving Repr, DecidableEq

/-- The body of one iteration of the `processRequestQueue` loop once a local
socket `sid` is available (source lines 169-229): write the request, then
either finish the response — `Buffer.concat([...responseChunks,
tunnel.eofMarker])` with the marker appended, handed to
`handleTunnelResponse`, i.e. sent as one binary frame — or, on a socket
error (`onError`, lines 187-194), drop the response and null out
`localSocket` to force a fresh connection for the next request.  When the
marker is still `null`, `Buffer.concat` with a `null` element throws inside
the completion callback; no claim reaches that branch and it is recorded as
an error effect. -/
def exchangeOn (oracle : Buf → ExchangeOutcome) (s : TunnelState) (sid : Nat)
    (evC : List Event) (r : Buf) : TunnelState × List Event :=
  match oracle r with
  | .success chunks =>
    match s.eofMarker with
    | some eo =>
        (s, evC ++ [Event.localWrite sid r,
                    Event.sendBinary (bufConcat (chunks ++ [eo]))])
    | none => (s, evC ++ [Event.localWrite sid r, Event.logError])
  | .socketError =>
    ({ s with localSocket := none },
     evC ++ [Event.localWrite sid r, Event.logError])

/-- One iteration of the loop including `ensureLocalConnection` (source
lines 105-147): reuse the cached live socket, else open a fresh connection
to the local port.  Inside the sequential loop `connecting` is always false
when this runs, so the busy-wait arm of `ensureLocalConnection` is never
taken. -/
def doExchange (oracle : Buf → ExchangeOutcome) (s : TunnelState) (r : Buf) :
    TunnelState × List Event :=
  match s.localSocket with
  | some k => exchangeOn oracle s k [] r
  | none =>
    exchangeOn oracle
      { s with localSocket := some s.nextSock, nextSock := s.nextSock + 1 }
      s.nextSock [Event.localConnect s.nextSock] r

/-- The `while (requestQueue.length > 0)` loop of `processRequestQueue`
(source lines 157-235), consuming the queued requests in FIFO order.  The
queue is drained by `shift()` one element per iteration; with no new
arrivals during the run (the single-threaded model steps handlers one at a
time) that equals folding over the queue contents. -/
def processQueueLoop (oracle : Buf → ExchangeOutcome) :
    List Buf → TunnelState → TunnelState × List Event
  | [], s => (s, [])
  | r :: rest, s =>
    let p := doExchange oracle s r
    let q := processQueueLoop oracle rest p.fst
    (q.fst, p.snd ++ q.snd)

/-- `processRequestQueue` (source lines 153-241): bail out when already
processing or the queue is empty; otherwise set `processing`, drain the
queue, and clear `processing` at the end. -/
def processRequestQueue (oracle : Buf → ExchangeOutcome) (s : TunnelState) :
    TunnelState × List Event :=
  if s.processing || s.requestQueue.isEmpty then (s, [])
  else
    let p := processQueueLoop oracle s.requestQueue
      { s with processing := true, requestQueue := [] }
    ({ p.fst with processing := false }, p.snd)

/-- The payloads written to the local server, in order, among a list of
effects. -/
def writesOf (evs : List Event) : List Buf :=
  evs.filterMap fun e =>
    match e with
    | .localWrite _ b => some b
    | _ => none

/-- The binary frames sent back over the tunnel, in order, among a list of
effects. -/
def sendsOf (evs : List Event) : List Buf :=
  evs.filterMap fun e =>
    match e with
    | .sendBinary b => some b
    | _ => none

/-- True of the forwarding effects: writes of requests to the local server
and binary response sends back over the tunnel. -/
def isForward : Event → Bool
  | .localWrite _ _ => true
  | .sendBinary _ => true
  | _ => false

/-- The forwarding effects (local writes and response sends) among a list
of effects. -/
def forwardEvents (evs : List Event) : List Event :=
  evs.filter isForward

/-! Concrete fixtures used as test inputs below. -/

/-- The relay greeting: a brace-prefixed text frame parsing to a JSON
object of type hello (byte 123 is the opening brace). -/
def helloMsg : Msg := Msg.text [123] (ParseOutcome.ok { type := some "hello" })

/-- A successful login acknowledgement naming this client primary. -/
def loginOkMsg : Msg :=
  Msg.text [123]
    (ParseOutcome.ok { type := some "login", status := some "ok", primary := some true })

/-- The start acknowledgement carrying the per-session markers. -/
def startMsg (su eo : Buf) : Msg :=
  Msg.text [123]
    (ParseOutcome.ok { type := some "start", suspend := some su, eof := some eo })

/-- A sample configuration: private tunnel, no framework app. -/
def cfgEx : Config :=
  { domain := "example.com", secret := "s3cret", device := "dev1",
    isPublic := false, hasApp := false, pingIntervalMs := 50000 }

/-- A live session whose handshake stored suspend marker `[1]` and eof
marker `[2]`. -/
def stC2 : TunnelState :=
  { initialState 30000 with
      suspendCommand := some [1], eofMarker := some [2], wsOpen := true }

/-- A connection that is open but has not completed the `start` handshake:
both markers are still null. -/
def stC4 : TunnelState :=
  { initialState 30000 with wsOpen := true }

/-- A fully active primary session with one queued request, used to observe
what the close handler releases. -/
def stC5 : TunnelState :=
  { suspendCommand := some [1], eofMarker := some [2], isPrimary := true,
    alive := true, wsOpen := true, pingTimer := true,
    autoConnectInterval := 30000, requestQueue := [[9]],
    processing := false, connecting := false,
    localSocket := some 0, nextSock := 1 }

/-- A live session with suspend marker `[1, 2, 3]` stored. -/
def st6 : TunnelState :=
  { initialState 30000 with
      suspendCommand := some [1, 2, 3], eofMarker := some [9], wsOpen := true }

/-- A handshaken session with two queued requests and no cached local
socket. -/
def stW1 : TunnelState :=
  { initialState 30000 with
      requestQueue := [[1], [2]], eofMarker := some [9],
      suspendCommand := some [0], wsOpen := true }

/-- A handshaken session with two queued requests and a cached local socket
with identifier 5. -/
def stW8 : TunnelState :=
  { initialState 30000 with
      requestQueue := [[1], [2]], eofMarker := some [9],
      suspendCommand := some [0], wsOpen := true,
      localSocket := some 5, nextSock := 6 }

/-- A local server that errors mid-response on request `[1]` and answers
`[[7]]` to everything else. -/
def oracle8 : Buf → ExchangeOutcome := fun r =>
  if r = [1] then ExchangeOutcome.socketError else ExchangeOutcome.success [[7]]

/-- An active session whose peer missed the previous ping (liveness flag
down). -/
def stDead : TunnelState :=
  { initialState 30000 with alive := false, wsOpen := true, pingTimer := true }

/-- An active session whose peer answered the previous ping. -/
def stLive : TunnelState :=
  { initialState 30000 with alive := true, wsOpen := true, pingTimer := true }

/-! Helper lemmas. -/

theorem writesOf_append (l1 l2 : List Event) :
    writesOf (l1 ++ l2) = writesOf l1 ++ writesOf l2 := by
  simp [writesOf, List.filterMap_append]

theorem sendsOf_append (l1 l2 : List Event) :
    sendsOf (l1 ++ l2) = sendsOf l1 ++ sendsOf l2 := by
  simp [sendsOf, List.filterMap_append]

theorem reconnect_not_in_cleanup (s : TunnelState) :
    Event.scheduleReconnect ∉ (cleanup s).snd := by
  unfold cleanup
  dsimp only
  split <;> split <;> simp

theorem forwardEvents_cleanup (s : TunnelState) :
    forwardEvents (cleanup s).snd = [] := by
  unfold cleanup forwardEvents
  dsimp only
  split <;> split <;> rfl

/-- A text frame starting with an opening brace cannot also start with the
two-byte echo token: byte 123 is not byte 45. -/
theorem startsBrace_not_arrow (raw : Buf) (h : bufStartsWith raw [123] = true) :
    bufStartsWith raw [45, 62] = false := by
  cases raw with
  | nil => simp [bufStartsWith] at h
  | cons a t =>
    simp only [bufStartsWith, Bool.and_eq_true, beq_iff_eq] at h
    obtain ⟨ha, _⟩ := h
    subst ha
    simp [bufStartsWith]

/-- The post-catch code takes one of four shapes: throw on a null marker,
log the suspend signal, direct-write through the framework bypass, or
enqueue the payload. -/
theorem suspendOrForward_cases (cfg : Config) (s : TunnelState)
    (acc : List Event) (raw : Buf) :
    handleSuspendOrForward cfg s acc raw = HandlerResult.threw s acc ∨
    handleSuspendOrForward cfg s acc raw
      = HandlerResult.ok s (acc ++ [Event.logSuspend]) ∨
    (∃ k, handleSuspendOrForward cfg s acc raw
      = HandlerResult.ok s (acc ++ [Event.localWrite k raw])) ∨
    handleSuspendOrForward cfg s acc raw
      = HandlerResult.ok { s with requestQueue := s.requestQueue ++ [raw] } acc := by
  unfold handleSuspendOrForward
  cases s.suspendCommand with
  | none => exact Or.inl rfl
  | some sc =>
    dsimp only
    by_cases h1 : bufContains raw sc = true
    · rw [if_pos h1]
      exact Or.inr (Or.inl rfl)
    · rw [if_neg h1]
      by_cases h2 : (cfg.hasApp && s.processing && s.localSocket.isSome) = true
      · rw [if_pos h2]
        exact Or.inr (Or.inr (Or.inl ⟨_, rfl⟩))
      · rw [if_neg h2]
        exact Or.inr (Or.inr (Or.inr rfl))

/-- The echo branch of the control dispatch is dead code: it sits inside
the brace-guarded JSON branch, and a brace-prefixed message never starts
with the echo token. -/
theorem logEcho_not_in_control (cfg : Config) (s : TunnelState) (raw : Buf)
    (parsed : ParseOutcome) (t : Buf) :
    Event.logEcho t ∉ (handleControlText cfg s raw parsed).snd.fst := by
  unfold handleControlText
  by_cases hb : bufStartsWith raw [123] = true
  · rw [if_pos hb]
    cases parsed with
    | err => simp
    | ok j =>
      dsimp only
      have harrow := startsBrace_not_arrow raw hb
      by_cases h1 : j.type = some "hello"
      · simp [h1]
      · rw [if_neg h1]
        by_cases h2 : j.type = some "login" ∧ j.status = some "ok"
        · simp [h1, h2]
        · rw [if_neg h2]
          by_cases h3 : j.type = some "start"
          · rw [if_pos h3]
            rcases hsu : j.suspend with _ | su <;> rcases heo : j.eof with _ | eo <;>
              simp [hsu, heo]
          · rw [if_neg h3]
            by_cases h4 : j.type = some "error"
            · simp [h1, h2, h3, h4]
            · rw [if_neg h4]
              rw [if_neg (show ¬ bufStartsWith raw [45, 62] = true by simp [harrow])]
              simp
  · rw [if_neg hb]
    simp

theorem logEcho_not_in_suspendOrForward (cfg : Config) (s : TunnelState)
    (acc : List Event) (raw : Buf) (t : Buf) (h : Event.logEcho t ∉ acc) :
    Event.logEcho t ∉ (handleSuspendOrForward cfg s acc raw).events := by
  rcases suspendOrForward_cases cfg s acc raw with h1 | h1 | ⟨k, h1⟩ | h1 <;>
    simp [h1, HandlerResult.events, h]

theorem logEcho_not_in_onMessage (cfg : Config) (s : TunnelState) (m : Msg)
    (t : Buf) : Event.logEcho t ∉ (onMessage cfg s m).events := by
  cases m with
  | binary raw =>
    simp only [onMessage]
    split
    · simp [HandlerResult.events]
    · exact logEcho_not_in_suspendOrForward cfg s [] raw t (by simp)
  | text raw parsed =>
    simp only [onMessage]
    split
    · simp [HandlerResult.events]
    · rcases hc : handleControlText cfg s raw parsed with ⟨s1, evs, b⟩
      have hne := logEcho_not_in_control cfg s raw parsed t
      rw [hc] at hne
      cases b with
      | true => simpa [HandlerResult.events] using hne
      | false =>
        exact logEcho_not_in_suspendOrForward cfg s1 evs raw t (by simpa using hne)

/-- In the post-catch forwarding code, a stored suspend marker rules out the
uncaught `TypeError`. -/
theorem suspendOrForward_not_threw (cfg : Config) (s : TunnelState)
    (acc : List Event) (raw : Buf) (sc : Buf) (h : s.suspendCommand = some sc) :
    (handleSuspendOrForward cfg s acc raw).isThrew = false := by
  unfold handleSuspendOrForward
  rw [h]
  dsimp only
  by_cases h1 : bufContains raw sc = true
  · rw [if_pos h1]
    rfl
  · rw [if_neg h1]
    by_cases h2 : (cfg.hasApp && s.processing && s.localSocket.isSome) = true
    · rw [if_pos h2]
      rfl
    · rw [if_neg h2]
      rfl

/-- The control dispatch never clears a stored suspend marker: the only
branch writing it stores a fresh `some` value. -/
theorem control_keeps_marker (cfg : Config) (s : TunnelState) (raw : Buf)
    (parsed : ParseOutcome) (sc : Buf) (h : s.suspendCommand = some sc) :
    ((handleControlText cfg s raw parsed).fst).suspendCommand.isSome = true := by
  unfold handleControlText
  by_cases hb : bufStartsWith raw [123] = true
  · rw [if_pos hb]
    cases parsed with
    | err => simp [h]
    | ok j =>
      dsimp only
      by_cases h1 : j.type = some "hello"
      · simp [h1, h]
      · rw [if_neg h1]
        by_cases h2 : j.type = some "login" ∧ j.status = some "ok"
        · simp [h1, h2, h]
        · rw [if_neg h2]
          by_cases h3 : j.type = some "start"
          · rw [if_pos h3]
            rcases hsu : j.suspend with _ | su <;> rcases heo : j.eof with _ | eo <;>
              simp [hsu, heo, h]
          · rw [if_neg h3]
            by_cases h4 : j.type = some "error"
            · simp [h1, h2, h3, h4, h]
            · rw [if_neg h4]
              by_cases h5 : bufStartsWith raw [45, 62] = true
              · rw [if_pos h5]
                simp [h]
              · rw [if_neg h5]
                simp [h]
  · rw [if_neg hb]
    simp [h]

/-- C3: given the control messages hello, then login with status ok and
primary true, then start carrying suspend `su` and eof `eo`, in that order
on one connection, the client sends exactly two messages — first a login
carrying domain, secret and device, then a start carrying the configured
usage — and afterwards the stored suspend marker is `su` and the stored
eof marker is `eo`. -/
theorem C3_handshake_sequencing (cfg : Config) (s : TunnelState) (su eo : Buf) :
    runMsgs cfg s [helloMsg, loginOkMsg, startMsg su eo] =
      ({ s with isPrimary := true, suspendCommand := some su, eofMarker := some eo },
       [Event.sendLogin cfg.domain cfg.secret cfg.device,
        Event.sendStart (if cfg.isPublic then "public" else "private")]) := by
  rfl

/-- C2 counterexample: with suspend marker `[1]` stored, the binary frame
`[0, 1]` is not byte-identical to the marker, yet the handler treats it as
the suspend signal (logged, queue unchanged) instead of enqueuing it,
because the code tests `indexOf !== -1` (substring containment), not
whole-frame equality. -/
theorem C2_counterexample :
    onMessage cfgEx stC2 (Msg.binary [0, 1]) = HandlerResult.ok stC2 [Event.logSuspend]
    ∧ (([0, 1] : Buf) == [1]) = false
    ∧ stC2.suspendCommand = some [1] := by
  refine ⟨?_, ?_, rfl⟩
  · rfl
  · decide

/-- C2 amended: while a suspend marker is stored (and without the framework
bypass), an inbound binary frame is treated as the suspend control signal
— logged, queue unchanged — if and only if the marker occurs as a
contiguous byte substring anywhere in the frame; a frame not containing
the marker is enqueued as a pending request. -/
theorem C2_amended_substring_match (cfg : Config) (s : TunnelState)
    (sc raw : Buf) (ha : cfg.hasApp = false) (hm : s.suspendCommand = some sc)
    (hr : raw ≠ []) :
    onMessage cfg s (Msg.binary raw) =
      if bufContains raw sc then HandlerResult.ok s [Event.logSuspend]
      else HandlerResult.ok { s with requestQueue := s.requestQueue ++ [raw] } [] := by
  have hlen : ¬ raw.length = 0 := by simpa using hr
  unfold onMessage handleSuspendOrForward
  dsimp only
  rw [if_neg hlen, hm]
  dsimp only
  split
  · rfl
  · rw [if_neg (show ¬ (cfg.hasApp && s.processing && s.localSocket.isSome) = true by
        simp [ha])]

/-- C2 amended, witness: an instantiation at the stored marker `[1]` with a
frame `[5, 6]` that does not contain it. -/
theorem C2_amended_substring_match_witness :
    onMessage cfgEx stC2 (Msg.binary [5, 6])
      = HandlerResult.ok { stC2 with requestQueue := [[5, 6]] } [] := by
  rw [C2_amended_substring_match cfgEx stC2 [1] [5, 6] rfl rfl (by decide)]
  decide

/-- C4 counterexample: a non-empty binary payload arriving while the
handshake has not yet stored the markers (suspend marker still null)
reaches `req.indexOf(null)`, which throws a TypeError out of the message
handler — contradicting the claim that no failure throws out of the
event-driven handler for all messages including this case. -/
theorem C4_counterexample :
    onMessage cfgEx stC4 (Msg.binary [7]) = HandlerResult.threw stC4 [] := by
  rfl

/-- C4 amended: parsing errors while interpreting a text message are caught
and logged, and no message at all throws out of the handler while a
suspend marker is stored; but any non-empty binary payload that arrives
while the suspend marker is still null makes the containment check throw a
TypeError out of the handler. -/
theorem C4_amended_caught_unless_null_marker (cfg : Config) (s : TunnelState) :
    (∀ m : Msg, s.suspendCommand.isSome = true → (onMessage cfg s m).isThrew = false)
    ∧ (∀ raw : Buf, s.suspendCommand = none → raw ≠ [] →
        onMessage cfg s (Msg.binary raw) = HandlerResult.threw s [])
    ∧ (∀ raw : Buf, bufStartsWith raw [123] = true →
        Event.logError ∈ (onMessage cfg s (Msg.text raw ParseOutcome.err)).events) := by
  refine ⟨?_, ?_, ?_⟩
  · intro m hm
    obtain ⟨sc, hsc⟩ := Option.isSome_iff_exists.mp hm
    cases m with
    | binary raw =>
      simp only [onMessage]
      split
      · rfl
      · exact suspendOrForward_not_threw cfg s [] raw sc hsc
    | text raw parsed =>
      simp only [onMessage]
      split
      · rfl
      · rcases hc : handleControlText cfg s raw parsed with ⟨s1, evs, b⟩
        have h1 := control_keeps_marker cfg s raw parsed sc hsc
        rw [hc] at h1
        obtain ⟨sc1, hsc1⟩ := Option.isSome_iff_exists.mp h1
        cases b with
        | true => rfl
        | false => exact suspendOrForward_not_threw cfg s1 evs raw sc1 hsc1
  · intro raw hm hr
    have hlen : ¬ raw.length = 0 := by simpa using hr
    simp [onMessage, handleSuspendOrForward, hm, hlen]
  · intro raw hb
    have hr : raw ≠ [] := by
      intro hnil
      rw [hnil] at hb
      simp [bufStartsWith] at hb
    have hlen : ¬ raw.length = 0 := by simpa using hr
    simp only [onMessage, hlen, if_neg, ite_false]
    have hctl : handleControlText cfg s raw ParseOutcome.err
        = (s, [Event.logError], false) := by
      unfold handleControlText
      rw [if_pos hb]
    rw [hctl]
    rcases suspendOrForward_cases cfg s [Event.logError] raw with h1 | h1 | ⟨k, h1⟩ | h1 <;>
      simp [h1, HandlerResult.events]

/-- C4 amended, witness: the three parts instantiated — a non-marker frame
on a session with markers does not throw; the pre-handshake binary frame
throws; a brace-prefixed unparsable text frame logs a caught error. -/
theorem C4_amended_caught_unless_null_marker_witness :
    (onMessage cfgEx stC2 (Msg.binary [0, 1])).isThrew = false
    ∧ onMessage cfgEx stC4 (Msg.binary [7]) = HandlerResult.threw stC4 []
    ∧ Event.logError ∈ (onMessage cfgEx stC2 (Msg.text [123, 125] ParseOutcome.err)).events := by
  refine ⟨?_, ?_, ?_⟩
  · exact (C4_amended_caught_unless_null_marker cfgEx stC2).1 (Msg.binary [0, 1]) (by decide)
  · exact (C4_amended_caught_unless_null_marker cfgEx stC4).2.1 [7] rfl (by decide)
  · exact (C4_amended_caught_unless_null_marker cfgEx stC2).2.2 [123, 125] (by decide)

/-- C6: the claim fails on the code. A non-JSON text frame beginning with
the reserved echo token (here the bytes of a short string after the two
token bytes 45, 62), received with a suspend marker stored, is neither
echo-logged nor dropped: it falls through the control dispatch and is
enqueued as a pending request, reaching the forwarding path.  Moreover the
echo branch is dead code — no input whatsoever can produce an echo log,
because the branch sits inside the opening-brace guard and a brace-prefixed
message cannot start with the echo token. -/
theorem C6_text_fallthrough_enqueued :
    onMessage cfgEx st6 (Msg.text [45, 62, 98] ParseOutcome.err)
      = HandlerResult.ok { st6 with requestQueue := [[45, 62, 98]] } []
    ∧ ∀ (cfg : Config) (s : TunnelState) (m : Msg) (t : Buf),
        (onMessage cfg s m).events.count (Event.logEcho t) = 0 := by
  constructor
  · rfl
  · intro cfg s m t
    exact List.count_eq_zero.mpr (logEcho_not_in_onMessage cfg s m t)

/-- C5 counterexample: on the transport-close of a primary session, the
close handler does not reset the primary flag to its initial value
(`false`, as `initialState` shows): after the handler the flag is still
`true`, contradicting the claim that the suspend marker, eof marker and
primary flag are all reset to their initial values. -/
theorem C5_counterexample :
    stC5.isPrimary = true
    ∧ (initialState 30000).isPrimary = false
    ∧ (onClose stC5).fst.isPrimary = true := by
  refine ⟨rfl, rfl, ?_⟩
  decide

/-- Both branches of the close handler build the same state. -/
theorem onClose_fst (s : TunnelState) :
    (onClose s).fst =
      { (cleanup s).fst with
          wsOpen := false, suspendCommand := none, eofMarker := none } := by
  unfold onClose
  split <;> rfl

/-- The close handler emits a reconnect exactly when the interval is above
the 10000 ms threshold. -/
theorem reconnect_mem_onClose (s : TunnelState) :
    Event.scheduleReconnect ∈ (onClose s).snd ↔ 10000 < s.autoConnectInterval := by
  unfold onClose
  by_cases hac : 10000 < s.autoConnectInterval
  · rw [if_pos hac]
    simp [hac]
  · rw [if_neg hac]
    dsimp only
    exact iff_of_false (reconnect_not_in_cleanup s) hac

/-- C5 amended: on every transport close, both markers are cleared, the
liveness timer is stopped, the local-link state (socket, queue, flags) is
released, and a reconnect is scheduled if and only if the reconnect
interval is above the 10000 ms threshold; `close()` forces the interval to
0, so no later transport close schedules a reconnect — but the primary
flag is not reset: it keeps its current value until the next login. -/
theorem C5_amended_close_releases_state (s : TunnelState) :
    (onClose s).fst.suspendCommand = none
    ∧ (onClose s).fst.eofMarker = none
    ∧ (onClose s).fst.wsOpen = false
    ∧ (onClose s).fst.isPrimary = s.isPrimary
    ∧ (onClose s).fst.pingTimer = false
    ∧ (onClose s).fst.localSocket = none
    ∧ (onClose s).fst.requestQueue = []
    ∧ (onClose s).fst.connecting = false
    ∧ (onClose s).fst.processing = false
    ∧ (onClose s).fst.alive = false
    ∧ (Event.scheduleReconnect ∈ (onClose s).snd ↔ 10000 < s.autoConnectInterval)
    ∧ (close s).fst.autoConnectInterval = 0
    ∧ Event.scheduleReconnect ∉ (onClose (close s).fst).snd := by
  have hz : (close s).fst.autoConnectInterval = 0 := by
    by_cases hw : s.wsOpen = true <;> simp [close, cleanup, hw]
  have hfst := onClose_fst s
  have hnot : Event.scheduleReconnect ∉ (onClose (close s).fst).snd := by
    have hiff := reconnect_mem_onClose (close s).fst
    rw [hz] at hiff
    intro hmem
    exact absurd (hiff.mp hmem) (by decide)
  refine ⟨?_, ?_, ?_, ?_, ?_, ?_, ?_, ?_, ?_, ?_, reconnect_mem_onClose s, hz, hnot⟩ <;>
    (rw [hfst]; try simp [cleanup])

/-- C5 amended, witness: the amended close-handler law instantiated at the
active primary session `stC5`. -/
theorem C5_amended_close_releases_state_witness :
    (onClose stC5).fst.suspendCommand = none
    ∧ (onClose stC5).fst.eofMarker = none
    ∧ (onClose stC5).fst.wsOpen = false
    ∧ (onClose stC5).fst.isPrimary = stC5.isPrimary
    ∧ (onClose stC5).fst.pingTimer = false
    ∧ (onClose stC5).fst.localSocket = none
    ∧ (onClose stC5).fst.requestQueue = []
    ∧ (onClose stC5).fst.connecting = false
    ∧ (onClose stC5).fst.processing = false
    ∧ (onClose stC5).fst.alive = false
    ∧ (Event.scheduleReconnect ∈ (onClose stC5).snd ↔ 10000 < stC5.autoConnectInterval)
    ∧ (close stC5).fst.autoConnectInterval = 0
    ∧ Event.scheduleReconnect ∉ (onClose (close stC5).fst).snd :=
  C5_amended_close_releases_state stC5

/-- C9: `close()` is idempotent — a second call on the state the first call
produced returns that very state and performs no further observable effect
(no second close frame, no timer clear and no socket destroy). -/
theorem C9_close_idempotent (s : TunnelState) :
    close (close s).fst = ((close s).fst, []) := by
  by_cases hw : s.wsOpen = true <;> simp [close, cleanup, hw]

/-- C10: implicit request loss — `cleanup` (run on every transport close,
on every transport error, and at the start of every connect attempt)
empties the request queue, and none of these operations performs any
forwarding effect: every pending request still queued is discarded without
ever being written to the local server and without any response being
sent. -/
theorem C10_cleanup_discards_queue (cfg : Config) (s : TunnelState) :
    (cleanup s).fst.requestQueue = []
    ∧ forwardEvents (cleanup s).snd = []
    ∧ (onClose s).fst.requestQueue = []
    ∧ forwardEvents (onClose s).snd = []
    ∧ (onWsError s).fst.requestQueue = []
    ∧ forwardEvents (onWsError s).snd = []
    ∧ (connectToTunnel cfg s).fst.requestQueue = []
    ∧ forwardEvents (connectToTunnel cfg s).snd = [] := by
  have hfc := forwardEvents_cleanup s
  refine ⟨rfl, hfc, ?_, ?_, rfl, ?_, rfl, ?_⟩
  · by_cases hac : 10000 < s.autoConnectInterval <;> simp [onClose, cleanup, hac]
  · by_cases hac : 10000 < s.autoConnectInterval <;>
      simp [onClose, forwardEvents, List.filter_append, isForward, hac] <;>
      simpa [forwardEvents] using hfc
  · simpa [onWsError, forwardEvents, isForward] using hfc
  · simp [connectToTunnel, forwardEvents, List.filter_append, isForward]
    simpa [forwardEvents] using hfc

/-- C7: liveness heartbeat. A tick of the ping timer that finds the
liveness flag down stops the timer and force-closes the relay connection,
and the transport-close path then schedules a reconnect whenever the
reconnect interval is above the disabling threshold; any pong sets the
flag; a tick that finds the flag up clears it and sends a ping, so two
consecutive ticks with no pong in between close the connection. -/
theorem C7_liveness_two_missed_ticks (s : TunnelState) :
    (s.alive = false →
       pingTick s = ({ s with pingTimer := false }, [Event.wsCloseFrame])
       ∧ (10000 < s.autoConnectInterval →
            Event.scheduleReconnect ∈ (onClose (pingTick s).fst).snd))
    ∧ (onPong s).alive = true
    ∧ (s.alive = true → pingTick s = ({ s with alive := false }, [Event.sendPing]))
    ∧ (s.alive = true →
         (pingTick (pingTick s).fst).fst.pingTimer = false
         ∧ (pingTick (pingTick s).fst).snd = [Event.wsCloseFrame]) := by
  refine ⟨?_, rfl, ?_, ?_⟩
  · intro h
    refine ⟨by simp [pingTick, h], ?_⟩
    intro hac
    simp [pingTick, onClose, h, hac]
  · intro h
    simp [pingTick, h]
  · intro h
    simp [pingTick, h]

/-- C7 witness: the two tick behaviours and the pong behaviour at concrete
states — a session whose peer missed the last ping, and one whose peer
answered it. -/
theorem C7_liveness_two_missed_ticks_witness :
    pingTick stDead = ({ stDead with pingTimer := false }, [Event.wsCloseFrame])
    ∧ Event.scheduleReconnect ∈ (onClose (pingTick stDead).fst).snd
    ∧ (onPong stDead).alive = true
    ∧ pingTick stLive = ({ stLive with alive := false }, [Event.sendPing])
    ∧ (pingTick (pingTick stLive).fst).fst.pingTimer = false
    ∧ (pingTick (pingTick stLive).fst).snd = [Event.wsCloseFrame] := by
  obtain ⟨h1, h2, _, h4⟩ := C7_liveness_two_missed_ticks stDead
  obtain ⟨_, g2, g3, g4⟩ := C7_liveness_two_missed_ticks stLive
  exact ⟨(h1 rfl).1, (h1 rfl).2 (by decide), h2, g3 rfl, (g4 rfl).1, (g4 rfl).2⟩

/-- One successful exchange: exactly one local write of the request and one
response send with the marker appended; the eof marker and the processing
flag are untouched. -/
theorem doExchange_success (oracle : Buf → ExchangeOutcome) (resp : Buf → List Buf)
    (eof : Buf) (s : TunnelState) (r : Buf)
    (ho : oracle r = ExchangeOutcome.success (resp r)) (he : s.eofMarker = some eof) :
    writesOf (doExchange oracle s r).snd = [r]
    ∧ sendsOf (doExchange oracle s r).snd = [bufConcat (resp r ++ [eof])]
    ∧ (doExchange oracle s r).fst.eofMarker = some eof
    ∧ (doExchange oracle s r).fst.processing = s.processing := by
  unfold doExchange exchangeOn
  cases hl : s.localSocket <;> simp [ho, he, writesOf, sendsOf]

/-- FIFO law of the drain loop: when every queued request succeeds against
the local server, the loop writes the requests in order and sends one
marker-terminated response per request, in the same order. -/
theorem processQueueLoop_fifo (oracle : Buf → ExchangeOutcome)
    (resp : Buf → List Buf) (eof : Buf) :
    ∀ (rs : List Buf) (s : TunnelState), s.eofMarker = some eof →
      (∀ r ∈ rs, oracle r = ExchangeOutcome.success (resp r)) →
      writesOf (processQueueLoop oracle rs s).snd = rs
      ∧ sendsOf (processQueueLoop oracle rs s).snd
          = rs.map (fun r => bufConcat (resp r ++ [eof]))
      ∧ (processQueueLoop oracle rs s).fst.eofMarker = some eof := by
  intro rs
  induction rs with
  | nil =>
    intro s he _
    exact ⟨rfl, rfl, he⟩
  | cons r rest ih =>
    intro s he hall
    obtain ⟨hw, hs, he2, _⟩ :=
      doExchange_success oracle resp eof s r (hall r (List.mem_cons_self r rest)) he
    obtain ⟨iw, isends, ie⟩ :=
      ih (doExchange oracle s r).fst he2 (fun x hx => hall x (List.mem_cons_of_mem r hx))
    have hsnd : (processQueueLoop oracle (r :: rest) s).snd
        = (doExchange oracle s r).snd
          ++ (processQueueLoop oracle rest (doExchange oracle s r).fst).snd := rfl
    have hfst : (processQueueLoop oracle (r :: rest) s).fst
        = (processQueueLoop oracle rest (doExchange oracle s r).fst).fst := rfl
    refine ⟨?_, ?_, ?_⟩
    · rw [hsnd, writesOf_append, hw, iw]
      rfl
    · rw [hsnd, sendsOf_append, hs, isends]
      rfl
    · rw [hfst]
      exact ie

/-- C1: with the end-of-response marker established, for every sequence of
payloads queued before processing starts, the forwarding loop writes them
to the local server in arrival order and sends their responses back over
the tunnel in the same order, each exactly once, each with the current
end-of-response marker appended; afterwards the loop is ready for new
arrivals. -/
theorem C1_fifo_responses (oracle : Buf → ExchangeOutcome) (resp : Buf → List Buf)
    (eof : Buf) (s : TunnelState)
    (hp : s.processing = false) (he : s.eofMarker = some eof)
    (hall : ∀ r ∈ s.requestQueue, oracle r = ExchangeOutcome.success (resp r)) :
    writesOf (processRequestQueue oracle s).snd = s.requestQueue
    ∧ sendsOf (processRequestQueue oracle s).snd
        = s.requestQueue.map (fun r => bufConcat (resp r ++ [eof]))
    ∧ (processRequestQueue oracle s).fst.processing = false := by
  unfold processRequestQueue
  rw [hp]
  by_cases hq : s.requestQueue.isEmpty = true
  · rw [if_pos (by simp [hq])]
    have hnil : s.requestQueue = [] := by simpa [List.isEmpty_iff] using hq
    simp [hnil, writesOf, sendsOf, hp]
  · rw [if_neg (by simp [hq])]
    have h := processQueueLoop_fifo oracle resp eof s.requestQueue
      { s with processing := true, requestQueue := [] } he hall
    exact ⟨h.1, h.2.1, rfl⟩

/-- C1 witness: two queued payloads against a local server answering `[7]`
to everything, with eof marker `[9]`: both are written in order and both
responses `[7, 9]` come back in order. -/
theorem C1_fifo_responses_witness :
    writesOf (processRequestQueue (fun _ => ExchangeOutcome.success [[7]]) stW1).snd
      = [[1], [2]]
    ∧ sendsOf (processRequestQueue (fun _ => ExchangeOutcome.success [[7]]) stW1).snd
      = [[7, 9], [7, 9]]
    ∧ (processRequestQueue (fun _ => ExchangeOutcome.success [[7]]) stW1).fst.processing
      = false := by
  have h := C1_fifo_responses (fun _ => ExchangeOutcome.success [[7]])
    (fun _ => [[7]]) [9] stW1 rfl rfl (fun r _ => rfl)
  refine ⟨h.1, ?_, h.2.2⟩
  rw [h.2.1]
  decide

/-- C8: local-failure isolation. With requests `r1` and `r2` queued and a
cached local socket `k`, if the local exchange for `r1` errors mid-response
and the one for `r2` succeeds, the run writes `r1` on socket `k`, sends no
response for `r1`, opens a fresh local connection, writes `r2` on it, and
sends exactly the marker-terminated response for `r2`; the loop finishes
ready for more work with the fresh socket cached. -/
theorem C8_local_error_isolated (oracle : Buf → ExchangeOutcome) (s : TunnelState)
    (r1 r2 : Buf) (ch : List Buf) (eof : Buf) (k : Nat)
    (hp : s.processing = false) (hq : s.requestQueue = [r1, r2])
    (he : s.eofMarker = some eof) (hl : s.localSocket = some k)
    (h1 : oracle r1 = ExchangeOutcome.socketError)
    (h2 : oracle r2 = ExchangeOutcome.success ch) :
    (processRequestQueue oracle s).snd =
      [Event.localWrite k r1, Event.logError,
       Event.localConnect s.nextSock, Event.localWrite s.nextSock r2,
       Event.sendBinary (bufConcat (ch ++ [eof]))]
    ∧ (processRequestQueue oracle s).fst.processing = false
    ∧ (processRequestQueue oracle s).fst.localSocket = some s.nextSock := by
  simp [processRequestQueue, processQueueLoop, doExchange, exchangeOn,
        hp, hq, he, hl, h1, h2]

/-- C8 witness: the isolation law at a concrete state — request `[1]` fails
against cached socket 5 and request `[2]` succeeds against the freshly
opened socket 6. -/
theorem C8_local_error_isolated_witness :
    (processRequestQueue oracle8 stW8).snd =
      [Event.localWrite 5 [1], Event.logError, Event.localConnect 6,
       Event.localWrite 6 [2], Event.sendBinary [7, 9]]
    ∧ (processRequestQueue oracle8 stW8).fst.processing = false
    ∧ (processRequestQueue oracle8 stW8).fst.localSocket = some 6 := by
  have h := C8_local_error_isolated oracle8 stW8 [1] [2] [[7]] [9] 5
    rfl rfl rfl rfl (by decide) (by decide)
  refine ⟨?_, h.2.1, h.2.2⟩
  rw [h.1]
  decide

end SelfTunnel
